import Mathlib

/-! # Power-mode demonstration firmware (`src/main.c`): embedding and properties

The firmware is one linear control flow over the ESP-IDF / FreeRTOS platform
layer.  The embedding records every platform call in a trace (a list of
`Call`s, oldest first) and threads that trace through the C functions of
`main.c`, which are translated one by one below.

* the platform is a parameter (`Platform`): the tick conversion macro, the
  timer readings and the allocator answers are not part of `main.c`;
* a computation either returns to its caller or never returns
  (`esp_deep_sleep_start` powers the CPU down);
* C `int` arithmetic is 32-bit two's complement, written with an explicit
  reduction modulo `2^32`.
-/

namespace PowerModes

/-! ## Machine integers -/

/-- Reduction of a mathematical integer to the value held by a 32-bit `int`. -/
def wrap32 (x : Int) : Int := (x + 2147483648) % 4294967296 - 2147483648

/-- The C sum `a + b` on `int`. -/
def int_add (a b : Int) : Int := wrap32 (a + b)

/-- The C product `a * b` on `int`. -/
def int_mul (a b : Int) : Int := wrap32 (a * b)

/-- Conversion of an integer value to `uint64_t`. -/
def to_uint64 (x : Int) : Nat := (x % 18446744073709551616).toNat

/-- The C difference `a - b` on `uint64_t`. -/
def uint64_sub (a b : Nat) : Nat := (a + 18446744073709551616 - b % 18446744073709551616) % 18446744073709551616

/-! ## Platform calls -/

/-- The one GPIO direction used by `main.c`. -/
inductive gpio_mode_t where
  | GPIO_MODE_OUTPUT
  deriving DecidableEq, Repr

/-- The one wake-source selector used by `main.c`. -/
inductive esp_sleep_source_t where
  | ESP_SLEEP_WAKEUP_ALL
  deriving DecidableEq, Repr

/-- An argument passed to `printf` after the format string. -/
inductive PrintfArg where
  /-- a `%llu` argument -/
  | llu (v : Nat)
  /-- a `%d` argument -/
  | d (v : Int)
  /-- a `%s` argument: the address of the buffer -/
  | s (buf : Nat)
  deriving DecidableEq, Repr

/-- A call made by `main.c` into the platform layer, with its arguments. -/
inductive Call where
  | gpio_reset_pin (pin : Nat)
  | gpio_set_direction (pin : Nat) (mode : gpio_mode_t)
  | gpio_set_level (pin : Nat) (level : Nat)
  | vTaskDelay (ticks : Nat)
  | esp_sleep_disable_wakeup_source (source : esp_sleep_source_t)
  | esp_sleep_enable_timer_wakeup (time_in_us : Nat)
  | esp_timer_get_time
  | printf (format : String) (args : List PrintfArg)
  | malloc (size : Nat)
  | vTaskGetRunTimeStats (buf : Nat)
  | free (buf : Nat)
  | esp_light_sleep_start
  | esp_deep_sleep_start
  deriving DecidableEq, Repr

/-- What `main.c` takes from the platform and cannot determine itself.  The
answers of the timer and of the allocator may depend on everything that
happened before the call (the trace so far). -/
structure Platform where
  /-- the FreeRTOS macro `pdMS_TO_TICKS` (depends on the configured tick rate) -/
  pdMS_TO_TICKS : Int → Nat
  /-- the `int64_t` returned by `esp_timer_get_time` -/
  timer_value : List Call → Int
  /-- the answer of `malloc (size)`: `none` is `NULL`, `some p` a block at `p` -/
  malloc_result : List Call → Nat → Option Nat

/-- A computation over the trace of platform calls.  The first component of
the result is `some a` when control returns to the caller with value `a`, and
`none` when it never returns. -/
def Exec (α : Type) : Type := List Call → Option α × List Call

/-- Return to the caller without any platform call. -/
def Exec.ret {α : Type} (a : α) : Exec α := fun t => (some a, t)

/-- Sequencing: the continuation runs only if the first part returns. -/
def Exec.andThen {α β : Type} (m : Exec α) (f : α → Exec β) : Exec β := fun t =>
  match m t with
  | (some a, t1) => f a t1
  | (none, t1) => (none, t1)

instance : Monad Exec where
  pure := Exec.ret
  bind := Exec.andThen

/-- A platform call that returns nothing of interest. -/
def call (c : Call) : Exec Unit := fun t => (some (), t ++ [c])

/-- The platform call `esp_timer_get_time ()`. -/
def esp_timer_get_time (P : Platform) : Exec Int := fun t =>
  (some (P.timer_value t), t ++ [Call.esp_timer_get_time])

/-- The platform call `malloc (size)`. -/
def malloc (P : Platform) (size : Nat) : Exec (Option Nat) := fun t =>
  (some (P.malloc_result t size), t ++ [Call.malloc size])

/-- The platform call `esp_light_sleep_start ()`: suspends and returns on wake. -/
def esp_light_sleep_start : Exec Unit := call Call.esp_light_sleep_start

/-- The platform call `esp_deep_sleep_start ()`: declared `noreturn` by the platform; the CPU
powers down and the next thing that runs is the boot code. -/
def esp_deep_sleep_start : Exec Unit := fun t => (none, t ++ [Call.esp_deep_sleep_start])

/-! ## `main.c` -/

/-- The macro `#define LED_PIN GPIO_NUM_2` (the built-in LED, GPIO 2). -/
def LED_PIN : Nat := 2

/-- The loop of `blinkLED`: `fuel` bounds the number of iterations, `i` is the
loop counter. -/
def blinkLED_loop (P : Platform) (times delayOn delayOff : Int) : Nat → Int → Exec Unit
  | 0, _ => pure ()
  | fuel + 1, i =>
    if i < times then do
      call (Call.gpio_set_level LED_PIN 1)
      call (Call.vTaskDelay (P.pdMS_TO_TICKS delayOn))
      call (Call.gpio_set_level LED_PIN 0)
      call (Call.vTaskDelay (P.pdMS_TO_TICKS delayOff))
      blinkLED_loop P times delayOn delayOff fuel (int_add i 1)
    else pure ()

/-- The function `void blinkLED(int times, int delayOn, int delayOff)`.  The counter runs
from 0 to `times`, so `times` iterations of fuel are enough. -/
def blinkLED (P : Platform) (times delayOn delayOff : Int) : Exec Unit :=
  blinkLED_loop P times delayOn delayOff times.toNat 0

/-- The function `void configure_wakeup_sources_light_sleep()`. -/
def configure_wakeup_sources_light_sleep : Exec Unit := do
  call (Call.esp_sleep_disable_wakeup_source esp_sleep_source_t.ESP_SLEEP_WAKEUP_ALL)
  call (Call.esp_sleep_enable_timer_wakeup (to_uint64 (int_mul 10 1000000)))

/-- The function `void configure_wakeup_sources_deep_sleep()`. -/
def configure_wakeup_sources_deep_sleep : Exec Unit := do
  call (Call.esp_sleep_disable_wakeup_source esp_sleep_source_t.ESP_SLEEP_WAKEUP_ALL)
  call (Call.esp_sleep_enable_timer_wakeup (to_uint64 (int_mul 5 1000000)))

/-- The loop of `simulate_cpu_workload` on the pair (`i`, `result`); `fuel`
bounds the number of iterations. -/
def workload_loop : Nat → Int → Int → Int
  | 0, _, result => result
  | fuel + 1, i, result =>
    if i < 1000000 then workload_loop fuel (int_add i 1) (int_add result (int_mul i 2))
    else result

/-- The value of `result` when the loop of `simulate_cpu_workload` ends. -/
def workload_result : Int := workload_loop 1000000 0 0

/-- The function `void simulate_cpu_workload()`. -/
def simulate_cpu_workload (P : Platform) : Exec Unit := do
  call (Call.printf "Simulating CPU workload...\n" [])
  let start_time ← esp_timer_get_time P
  let result := workload_result
  let end_time ← esp_timer_get_time P
  call (Call.printf "CPU workload completed. Time taken: %llu microseconds. Result: %d\n"
    [PrintfArg.llu (uint64_sub (to_uint64 end_time) (to_uint64 start_time)), PrintfArg.d result])

/-- The function `void log_cpu_utilization()`. -/
def log_cpu_utilization (P : Platform) : Exec Unit := do
  call (Call.printf "Logging CPU utilization...\n" [])
  let runtime_stats_buffer ← malloc P 1024
  match runtime_stats_buffer with
  | none =>
    call (Call.printf "Error: Failed to allocate memory for runtime stats.\n" [])
  | some buf => do
    call (Call.vTaskGetRunTimeStats buf)
    call (Call.printf "Task Runtime Statistics:\n%s\n" [PrintfArg.s buf])
    call (Call.free buf)

/-- The function `void run_mode_activity()`. -/
def run_mode_activity (P : Platform) : Exec Unit := do
  call (Call.printf "Entering Run Mode...\n" [])
  blinkLED P 1 300 300
  simulate_cpu_workload P
  log_cpu_utilization P
  call (Call.vTaskDelay (P.pdMS_TO_TICKS 2000))

/-- The function `void enter_light_sleep()`. -/
def enter_light_sleep (P : Platform) : Exec Unit := do
  call (Call.printf "Entering Light Sleep Mode...\n" [])
  blinkLED P 5 200 200
  configure_wakeup_sources_light_sleep
  esp_light_sleep_start
  call (Call.printf "Woke up from Light Sleep.\n" [])
  log_cpu_utilization P
  blinkLED P 2 500 500

/-- The function `void enter_deep_sleep()`. -/
def enter_deep_sleep (P : Platform) : Exec Unit := do
  call (Call.printf "Entering Deep Sleep Mode...\n" [])
  blinkLED P 3 500 500
  configure_wakeup_sources_deep_sleep
  call (Call.vTaskDelay (P.pdMS_TO_TICKS 500))
  esp_deep_sleep_start
  log_cpu_utilization P

/-- The function `void app_main()`. -/
def app_main (P : Platform) : Exec Unit := do
  call (Call.gpio_reset_pin LED_PIN)
  call (Call.gpio_set_direction LED_PIN gpio_mode_t.GPIO_MODE_OUTPUT)
  call (Call.printf "System booted. Configuring wake-up sources...\n" [])
  run_mode_activity P
  enter_light_sleep P
  enter_deep_sleep P

/-! ## Reading a trace -/

/-- One blink cycle as it appears in the trace. -/
def blinkCycle (P : Platform) (delayOn delayOff : Int) : List Call :=
  [Call.gpio_set_level LED_PIN 1, Call.vTaskDelay (P.pdMS_TO_TICKS delayOn),
   Call.gpio_set_level LED_PIN 0, Call.vTaskDelay (P.pdMS_TO_TICKS delayOff)]

/-- A run of `n` blink cycles. -/
def blinkCycles (P : Platform) (delayOn delayOff : Int) : Nat → List Call
  | 0 => []
  | n + 1 => blinkCycle P delayOn delayOff ++ blinkCycles P delayOn delayOff n

/-- A platform for concrete runs: 1 tick per millisecond, a timer that counts
the calls made so far, an allocator that always succeeds. -/
def demoPlatform : Platform where
  pdMS_TO_TICKS := fun ms => ms.toNat
  timer_value := fun t => (t.length : Int)
  malloc_result := fun _ _ => some 4096

/-- A platform whose allocator always fails. -/
def noHeapPlatform : Platform where
  pdMS_TO_TICKS := fun ms => ms.toNat
  timer_value := fun t => (t.length : Int)
  malloc_result := fun _ _ => none

/-- The arguments of the timer-wake arming calls of a trace, in order. -/
def timerArms : List Call → List Nat
  | [] => []
  | Call.esp_sleep_enable_timer_wakeup us :: rest => us :: timerArms rest
  | _ :: rest => timerArms rest

/-- The calls of `log_cpu_utilization` that follow `malloc`, by its answer. -/
def logTail : Option Nat → List Call
  | none => [Call.printf "Error: Failed to allocate memory for runtime stats.\n" []]
  | some buf =>
    [Call.vTaskGetRunTimeStats buf,
     Call.printf "Task Runtime Statistics:\n%s\n" [PrintfArg.s buf],
     Call.free buf]

/-- The calls of `simulate_cpu_workload` when it starts after the trace `t`. -/
def simulateCalls (P : Platform) (t : List Call) : List Call :=
  [Call.printf "Simulating CPU workload...\n" [],
   Call.esp_timer_get_time, Call.esp_timer_get_time,
   Call.printf "CPU workload completed. Time taken: %llu microseconds. Result: %d\n"
     [PrintfArg.llu (uint64_sub
         (to_uint64 (P.timer_value (t ++ [Call.printf "Simulating CPU workload...\n" [],
           Call.esp_timer_get_time])))
         (to_uint64 (P.timer_value (t ++ [Call.printf "Simulating CPU workload...\n" []])))),
      PrintfArg.d workload_result]]

/-- The calls of `log_cpu_utilization` when it starts after the trace `t`. -/
def logCalls (P : Platform) (t : List Call) : List Call :=
  Call.printf "Logging CPU utilization...\n" [] :: Call.malloc 1024 ::
    logTail (P.malloc_result (t ++ [Call.printf "Logging CPU utilization...\n" []]) 1024)

/-- The calls of `run_mode_activity` when it starts after the trace `t`. -/
def runCalls (P : Platform) (t : List Call) : List Call :=
  let a := Call.printf "Entering Run Mode...\n" [] :: blinkCycles P 300 300 1
  let b := simulateCalls P (t ++ a)
  let c := logCalls P (t ++ a ++ b)
  a ++ b ++ c ++ [Call.vTaskDelay (P.pdMS_TO_TICKS 2000)]

/-- The calls of `enter_light_sleep` up to and including the "Woke up" line. -/
def lightHead (P : Platform) : List Call :=
  Call.printf "Entering Light Sleep Mode...\n" [] :: blinkCycles P 200 200 5 ++
    [Call.esp_sleep_disable_wakeup_source esp_sleep_source_t.ESP_SLEEP_WAKEUP_ALL,
     Call.esp_sleep_enable_timer_wakeup 10000000,
     Call.esp_light_sleep_start,
     Call.printf "Woke up from Light Sleep.\n" []]

/-- The calls of `enter_light_sleep` when it starts after the trace `t`. -/
def lightCalls (P : Platform) (t : List Call) : List Call :=
  lightHead P ++ logCalls P (t ++ lightHead P) ++ blinkCycles P 500 500 2

/-- The calls of `enter_deep_sleep`. -/
def deepCalls (P : Platform) : List Call :=
  Call.printf "Entering Deep Sleep Mode...\n" [] :: blinkCycles P 500 500 3 ++
    [Call.esp_sleep_disable_wakeup_source esp_sleep_source_t.ESP_SLEEP_WAKEUP_ALL,
     Call.esp_sleep_enable_timer_wakeup 5000000,
     Call.vTaskDelay (P.pdMS_TO_TICKS 500),
     Call.esp_deep_sleep_start]

/-- The calls of `app_main` before the first phase. -/
def bootCalls : List Call :=
  [Call.gpio_reset_pin 2, Call.gpio_set_direction 2 gpio_mode_t.GPIO_MODE_OUTPUT,
   Call.printf "System booted. Configuring wake-up sources...\n" []]

/-- The calls of `app_main` when it starts after the trace `t`. -/
def appCalls (P : Platform) (t : List Call) : List Call :=
  let r := runCalls P (t ++ bootCalls)
  let l := lightCalls P (t ++ bootCalls ++ r)
  bootCalls ++ r ++ l ++ deepCalls P

/-- Checks that every timer-wake arming call of a trace comes directly after
a disarm-all call; the flag says whether the call before the trace was one. -/
def guardedFrom : Bool → List Call → Bool
  | _, [] => true
  | b, Call.esp_sleep_enable_timer_wakeup _ :: rest => b && guardedFrom false rest
  | _, Call.esp_sleep_disable_wakeup_source esp_sleep_source_t.ESP_SLEEP_WAKEUP_ALL :: rest =>
    guardedFrom true rest
  | _, _ :: rest => guardedFrom false rest

/-- Every timer-wake arming call of `calls` is immediately preceded by a
disarm-all call. -/
def ArmFollowsDisarm (calls : List Call) : Prop :=
  ∀ (pre post : List Call) (us : Nat),
    calls = pre ++ Call.esp_sleep_enable_timer_wakeup us :: post →
    ∃ pre', pre = pre' ++ [Call.esp_sleep_disable_wakeup_source
      esp_sleep_source_t.ESP_SLEEP_WAKEUP_ALL]

/-- The flag `guardedFrom` passes on after the call `c`. -/
def isDisarmAll : Call → Bool
  | Call.esp_sleep_disable_wakeup_source esp_sleep_source_t.ESP_SLEEP_WAKEUP_ALL => true
  | _ => false

/-- Whether a call arms a timer wake. -/
def isArm : Call → Bool
  | Call.esp_sleep_enable_timer_wakeup _ => true
  | _ => false

/-- Whether a call changes the set of armed wake sources. -/
def isWakeConfig : Call → Bool
  | Call.esp_sleep_disable_wakeup_source _ => true
  | Call.esp_sleep_enable_timer_wakeup _ => true
  | _ => false

/-- The calls of `app_main` written out, for a given timer difference `e`,
accumulator value `w` and allocator answers `r1`, `r2`. -/
def appShape (P : Platform) (e : Nat) (w : Int) (r1 r2 : Option Nat) : List Call :=
  bootCalls ++
  (Call.printf "Entering Run Mode...\n" [] :: blinkCycles P 300 300 1 ++
    [Call.printf "Simulating CPU workload...\n" [],
     Call.esp_timer_get_time, Call.esp_timer_get_time,
     Call.printf "CPU workload completed. Time taken: %llu microseconds. Result: %d\n"
       [PrintfArg.llu e, PrintfArg.d w]] ++
    (Call.printf "Logging CPU utilization...\n" [] :: Call.malloc 1024 :: logTail r1) ++
    [Call.vTaskDelay (P.pdMS_TO_TICKS 2000)]) ++
  (lightHead P ++ (Call.printf "Logging CPU utilization...\n" [] :: Call.malloc 1024 :: logTail r2)
    ++ blinkCycles P 500 500 2) ++
  deepCalls P

/-! ## The wake-source registry of the platform -/

/-- An armed wake source: the RTC timer with its duration, or a source of
another kind (external pin, touch pad, ...), told apart by a number. -/
inductive WakeSource where
  | timer (us : Nat)
  | other (kind : Nat)
  deriving DecidableEq, Repr

/-- Whether a wake source is the timer. -/
def WakeSource.isTimer : WakeSource → Bool
  | WakeSource.timer _ => true
  | WakeSource.other _ => false

/-- Modelled from the spec: the effect of a platform call on the set of armed
wake sources, which lives in the platform layer and not in `main.c`.
Disarm-all clears every armed source; arming the timer sets the timer source
(replacing an armed timer, keeping sources of other kinds); no other call
touches the registry. -/
def registry_step (r : List WakeSource) : Call → List WakeSource
  | Call.esp_sleep_disable_wakeup_source esp_sleep_source_t.ESP_SLEEP_WAKEUP_ALL => []
  | Call.esp_sleep_enable_timer_wakeup us =>
    WakeSource.timer us :: r.filter (fun s => !s.isTimer)
  | _ => r

/-- The registry after a sequence of platform calls, from the registry `r`. -/
def registry_after (r : List WakeSource) (calls : List Call) : List WakeSource :=
  calls.foldl registry_step r

/-- The two wake-source configuring functions of `main.c`. -/
inductive WakeConfig where
  | light
  | deep
  deriving DecidableEq, Repr

/-- The function of `main.c` named by a `WakeConfig`. -/
def WakeConfig.run : WakeConfig → Exec Unit
  | WakeConfig.light => configure_wakeup_sources_light_sleep
  | WakeConfig.deep => configure_wakeup_sources_deep_sleep

/-- The timer duration, in microseconds, that the function arms. -/
def WakeConfig.duration : WakeConfig → Nat
  | WakeConfig.light => 10000000
  | WakeConfig.deep => 5000000

/-- A sequence of calls to the configuring functions, one after the other. -/
def runConfigs : List WakeConfig → Exec Unit
  | [] => pure ()
  | c :: cs => do
    c.run
    runConfigs cs

/-- The calls of a sequence of configuring functions. -/
def configCalls : List WakeConfig → List Call
  | [] => []
  | c :: cs =>
    Call.esp_sleep_disable_wakeup_source esp_sleep_source_t.ESP_SLEEP_WAKEUP_ALL ::
      Call.esp_sleep_enable_timer_wakeup c.duration :: configCalls cs

/-! ## Running a computation -/

theorem bind_run {α β : Type} (m : Exec α) (f : α → Exec β) (t : List Call) :
    (m >>= f) t = Exec.andThen m f t := rfl

theorem pure_run {α : Type} (a : α) (t : List Call) :
    (pure a : Exec α) t = (some a, t) := rfl

theorem call_run (c : Call) (t : List Call) : call c t = (some (), t ++ [c]) := rfl

theorem wrap32_of_int (x : Int) (h1 : -2147483648 ≤ x) (h2 : x ≤ 2147483647) :
    wrap32 x = x := by
  unfold wrap32
  omega

theorem blinkLED_loop_run (P : Platform) (times delayOn delayOff : Int)
    (hmax : times ≤ 2147483647) :
    ∀ (fuel : Nat) (i : Int) (t : List Call), 0 ≤ i → i ≤ times → (times - i).toNat ≤ fuel →
      blinkLED_loop P times delayOn delayOff fuel i t
        = (some (), t ++ blinkCycles P delayOn delayOff (times - i).toNat) := by
  intro fuel
  induction fuel with
  | zero =>
    intro i t h0 hi hf
    have : (times - i).toNat = 0 := by omega
    simp [blinkLED_loop, this, blinkCycles, pure_run]
  | succ n ih =>
    intro i t h0 hi hf
    by_cases hlt : i < times
    · have hw : int_add i 1 = i + 1 := by
        unfold int_add
        exact wrap32_of_int _ (by omega) (by omega)
      have hn : (times - i).toNat = (times - (i + 1)).toNat + 1 := by omega
      simp only [blinkLED_loop, hlt, if_true, bind_run, Exec.andThen, call_run, hw]
      rw [ih (i + 1) _ (by omega) (by omega) (by omega), hn]
      simp [blinkCycles, blinkCycle]
    · have : (times - i).toNat = 0 := by omega
      simp [blinkLED_loop, hlt, this, blinkCycles, pure_run]

theorem blinkLED_loop_neg (P : Platform) (times delayOn delayOff : Int) (fuel : Nat) (i : Int)
    (t : List Call) (h : ¬ i < times) :
    blinkLED_loop P times delayOn delayOff fuel i t = (some (), t) := by
  cases fuel with
  | zero => simp [blinkLED_loop, pure_run]
  | succ n => simp [blinkLED_loop, h, pure_run]

theorem blinkLED_run (P : Platform) (times delayOn delayOff : Int) (t : List Call)
    (hmax : times ≤ 2147483647) :
    blinkLED P times delayOn delayOff t
      = (some (), t ++ blinkCycles P delayOn delayOff times.toNat) := by
  unfold blinkLED
  by_cases h0 : 0 ≤ times
  · have h := blinkLED_loop_run P times delayOn delayOff hmax times.toNat 0 t (le_refl 0) h0
      (by simp)
    simpa using h
  · have hz : times.toNat = 0 := by omega
    rw [blinkLED_loop_neg P times delayOn delayOff _ 0 t (by omega), hz]
    simp [blinkCycles]

theorem blinkLED_fuel (P : Platform) (times delayOn delayOff : Int) (t : List Call)
    (hmax : times ≤ 2147483647) (fuel : Nat) (hf : times.toNat ≤ fuel) :
    blinkLED_loop P times delayOn delayOff fuel 0 t = blinkLED P times delayOn delayOff t := by
  rw [blinkLED_run P times delayOn delayOff t hmax]
  by_cases h0 : 0 ≤ times
  · have h := blinkLED_loop_run P times delayOn delayOff hmax fuel 0 t (le_refl 0) h0
      (by simpa using hf)
    simpa using h
  · have hz : times.toNat = 0 := by omega
    rw [blinkLED_loop_neg P times delayOn delayOff _ 0 t (by omega), hz]
    simp [blinkCycles]

theorem blinkCycles_count_rise (P : Platform) (delayOn delayOff : Int) (n : Nat) :
    (blinkCycles P delayOn delayOff n).count (Call.gpio_set_level LED_PIN 1) = n := by
  induction n with
  | zero => simp [blinkCycles]
  | succ k ih =>
    simp [blinkCycles, blinkCycle, List.count_cons, ih]

theorem blinkCycles_count_fall (P : Platform) (delayOn delayOff : Int) (n : Nat) :
    (blinkCycles P delayOn delayOff n).count (Call.gpio_set_level LED_PIN 0) = n := by
  induction n with
  | zero => simp [blinkCycles]
  | succ k ih =>
    simp [blinkCycles, blinkCycle, List.count_cons, ih]

theorem light_duration : to_uint64 (int_mul 10 1000000) = 10000000 := by decide

theorem deep_duration : to_uint64 (int_mul 5 1000000) = 5000000 := by decide

theorem configure_light_run (t : List Call) :
    configure_wakeup_sources_light_sleep t
      = (some (), t ++ [Call.esp_sleep_disable_wakeup_source esp_sleep_source_t.ESP_SLEEP_WAKEUP_ALL,
          Call.esp_sleep_enable_timer_wakeup 10000000]) := by
  simp only [configure_wakeup_sources_light_sleep, bind_run, Exec.andThen, call_run,
    light_duration]
  simp

theorem configure_deep_run (t : List Call) :
    configure_wakeup_sources_deep_sleep t
      = (some (), t ++ [Call.esp_sleep_disable_wakeup_source esp_sleep_source_t.ESP_SLEEP_WAKEUP_ALL,
          Call.esp_sleep_enable_timer_wakeup 5000000]) := by
  simp only [configure_wakeup_sources_deep_sleep, bind_run, Exec.andThen, call_run,
    deep_duration]
  simp

theorem simulate_run (P : Platform) (t : List Call) :
    simulate_cpu_workload P t = (some (), t ++ simulateCalls P t) := by
  simp only [simulate_cpu_workload, bind_run, Exec.andThen, call_run, esp_timer_get_time,
    simulateCalls]
  simp

theorem log_run (P : Platform) (t : List Call) :
    log_cpu_utilization P t = (some (), t ++ logCalls P t) := by
  simp only [log_cpu_utilization, bind_run, Exec.andThen, call_run, malloc, logCalls]
  cases P.malloc_result (t ++ [Call.printf "Logging CPU utilization...\n" []]) 1024 with
  | none => simp [logTail, call_run]
  | some buf => simp [logTail, call_run, bind_run, Exec.andThen]

theorem run_mode_run (P : Platform) (t : List Call) :
    run_mode_activity P t = (some (), t ++ runCalls P t) := by
  simp only [run_mode_activity, bind_run, Exec.andThen, call_run,
    blinkLED_run P 1 300 300 _ (by decide), simulate_run, log_run, runCalls]
  simp

theorem light_run (P : Platform) (t : List Call) :
    enter_light_sleep P t = (some (), t ++ lightCalls P t) := by
  simp only [enter_light_sleep, bind_run, Exec.andThen, call_run, esp_light_sleep_start,
    blinkLED_run P 5 200 200 _ (by decide), blinkLED_run P 2 500 500 _ (by decide),
    configure_light_run, log_run, lightCalls, lightHead]
  simp

theorem deep_run (P : Platform) (t : List Call) :
    enter_deep_sleep P t = (none, t ++ deepCalls P) := by
  simp only [enter_deep_sleep, bind_run, Exec.andThen, call_run, esp_deep_sleep_start,
    blinkLED_run P 3 500 500 _ (by decide), configure_deep_run, deepCalls]
  simp

theorem app_main_run (P : Platform) (t : List Call) :
    app_main P t = (none, t ++ appCalls P t) := by
  simp only [app_main, bind_run, Exec.andThen, call_run, run_mode_run, light_run, deep_run,
    appCalls, bootCalls, LED_PIN]
  simp

theorem wrap32_add_wrap32 (a b : Int) : wrap32 (wrap32 a + b) = wrap32 (a + b) := by
  unfold wrap32
  omega

theorem wrap32_range (x : Int) : -2147483648 ≤ wrap32 x ∧ wrap32 x ≤ 2147483647 := by
  unfold wrap32
  omega

theorem workload_loop_run :
    ∀ (fuel : Nat) (i result : Int), 0 ≤ i → i ≤ 1000000 → (1000000 - i).toNat ≤ fuel →
      -2147483648 ≤ result → result ≤ 2147483647 →
      workload_loop fuel i result = wrap32 (result + (999999000000 - i * (i - 1))) := by
  intro fuel
  induction fuel with
  | zero =>
    intro i result h0 hi hf hr1 hr2
    have hi2 : i = 1000000 := by omega
    subst hi2
    simp only [workload_loop]
    rw [show result + (999999000000 - 1000000 * (1000000 - 1)) = result by norm_num]
    exact (wrap32_of_int result hr1 hr2).symm
  | succ n ih =>
    intro i result h0 hi hf hr1 hr2
    by_cases hlt : i < 1000000
    · have hw : int_add i 1 = i + 1 := by
        unfold int_add
        exact wrap32_of_int _ (by omega) (by omega)
      have hm : int_mul i 2 = i * 2 := by
        unfold int_mul
        exact wrap32_of_int _ (by omega) (by omega)
      simp only [workload_loop, hlt, if_true, hw, hm]
      have hr := wrap32_range (result + i * 2)
      unfold int_add
      rw [ih (i + 1) _ (by omega) (by omega) (by omega) hr.1 hr.2]
      rw [wrap32_add_wrap32]
      congr 1
      ring
    · have hi2 : i = 1000000 := by omega
      subst hi2
      simp only [workload_loop]
      rw [if_neg (by decide)]
      rw [show result + (999999000000 - 1000000 * (1000000 - 1)) = result by norm_num]
      exact (wrap32_of_int result hr1 hr2).symm

theorem workload_result_value : workload_result = -728379968 := by
  unfold workload_result
  rw [workload_loop_run 1000000 0 0 (by decide) (by decide) (by decide) (by decide) (by decide)]
  decide

theorem workload_fuel (fuel : Nat) (hf : 1000000 ≤ fuel) :
    workload_loop fuel 0 0 = workload_result := by
  rw [workload_result_value,
    workload_loop_run fuel 0 0 (by decide) (by decide) (by simpa using hf) (by decide) (by decide)]
  decide

theorem guardedFrom_cons (b : Bool) (c : Call) (rest : List Call)
    (h : guardedFrom b (c :: rest) = true) :
    guardedFrom (isDisarmAll c) rest = true ∧ (isArm c = true → b = true) := by
  cases c with
  | esp_sleep_disable_wakeup_source source =>
    cases source
    simpa [guardedFrom, isDisarmAll, isArm] using h
  | esp_sleep_enable_timer_wakeup us =>
    simpa [guardedFrom, isDisarmAll, isArm, and_comm] using h
  | _ => simpa [guardedFrom, isDisarmAll, isArm] using h

theorem isDisarmAll_eq (c : Call) (h : isDisarmAll c = true) :
    c = Call.esp_sleep_disable_wakeup_source esp_sleep_source_t.ESP_SLEEP_WAKEUP_ALL := by
  cases c with
  | esp_sleep_disable_wakeup_source source => cases source; rfl
  | _ => simp [isDisarmAll] at h

theorem guardedFrom_sound :
    ∀ (calls : List Call) (b : Bool), guardedFrom b calls = true →
      ∀ (pre post : List Call) (us : Nat),
        calls = pre ++ Call.esp_sleep_enable_timer_wakeup us :: post →
        (pre = [] ∧ b = true) ∨
        ∃ pre', pre = pre' ++ [Call.esp_sleep_disable_wakeup_source
          esp_sleep_source_t.ESP_SLEEP_WAKEUP_ALL] := by
  intro calls
  induction calls with
  | nil =>
    intro b _ pre post us h
    simp at h
  | cons c rest ih =>
    intro b hg pre post us h
    have hc := guardedFrom_cons b c rest hg
    cases pre with
    | nil =>
      left
      simp only [List.nil_append, List.cons.injEq] at h
      refine ⟨rfl, hc.2 ?_⟩
      rw [h.1]
      rfl
    | cons p pre2 =>
      right
      simp only [List.cons_append, List.cons.injEq] at h
      rcases ih (isDisarmAll c) hc.1 pre2 post us h.2 with ⟨h1, h2⟩ | ⟨pre', h1⟩
      · refine ⟨[], ?_⟩
        rw [h1, ← h.1, isDisarmAll_eq c h2]
        rfl
      · exact ⟨p :: pre', by rw [h1]; rfl⟩

theorem guardedFrom_armFollowsDisarm (calls : List Call) (h : guardedFrom false calls = true) :
    ArmFollowsDisarm calls := by
  intro pre post us hc
  rcases guardedFrom_sound calls false h pre post us hc with ⟨_, h2⟩ | h3
  · cases h2
  · exact h3

theorem logTail_cases (r : Option Nat) :
    logTail r = [Call.printf "Error: Failed to allocate memory for runtime stats.\n" []] ∨
    ∃ buf, logTail r = [Call.vTaskGetRunTimeStats buf,
      Call.printf "Task Runtime Statistics:\n%s\n" [PrintfArg.s buf], Call.free buf] := by
  cases r with
  | none => exact Or.inl rfl
  | some buf => exact Or.inr ⟨buf, rfl⟩

theorem appCalls_shape (P : Platform) (t : List Call) :
    ∃ (e : Nat) (r1 r2 : Option Nat), appCalls P t = appShape P e workload_result r1 r2 :=
  ⟨_, _, _, rfl⟩

theorem appShape_guarded (P : Platform) (e : Nat) (w : Int) (r1 r2 : Option Nat) :
    guardedFrom false (appShape P e w r1 r2) = true := by
  cases r1 <;> cases r2 <;>
    simp [appShape, bootCalls, lightHead, deepCalls, logTail, blinkCycles, blinkCycle,
      guardedFrom]

theorem appShape_timerArms (P : Platform) (e : Nat) (w : Int) (r1 r2 : Option Nat) :
    timerArms (appShape P e w r1 r2) = [10000000, 5000000] := by
  cases r1 <;> cases r2 <;>
    simp [appShape, bootCalls, lightHead, deepCalls, logTail, blinkCycles, blinkCycle,
      timerArms]

theorem appShape_count_light (P : Platform) (e : Nat) (w : Int) (r1 r2 : Option Nat) :
    (appShape P e w r1 r2).count Call.esp_light_sleep_start = 1 := by
  cases r1 <;> cases r2 <;>
  · simp only [appShape, bootCalls, lightHead, deepCalls, logTail, blinkCycles, blinkCycle,
      List.cons_append, List.nil_append, List.append_nil, List.append_assoc]
    simp only [List.count_cons, List.count_nil, beq_iff_eq, reduceCtorEq, if_false, if_true,
      Nat.zero_add, Nat.add_zero]

theorem appShape_count_deep (P : Platform) (e : Nat) (w : Int) (r1 r2 : Option Nat) :
    (appShape P e w r1 r2).count Call.esp_deep_sleep_start = 1 := by
  cases r1 <;> cases r2 <;>
  · simp only [appShape, bootCalls, lightHead, deepCalls, logTail, blinkCycles, blinkCycle,
      List.cons_append, List.nil_append, List.append_nil, List.append_assoc]
    simp only [List.count_cons, List.count_nil, beq_iff_eq, reduceCtorEq, if_false, if_true,
      Nat.zero_add, Nat.add_zero]

theorem appShape_count_printf (P : Platform) (e : Nat) (w : Int) (r1 r2 : Option Nat)
    (s : String)
    (hs : s = "Entering Run Mode...\n" ∨ s = "Entering Light Sleep Mode...\n" ∨
      s = "Entering Deep Sleep Mode...\n" ∨
      s = "System booted. Configuring wake-up sources...\n") :
    (appShape P e w r1 r2).count (Call.printf s []) = 1 := by
  rcases hs with h | h | h | h <;> subst h <;> cases r1 <;> cases r2 <;>
  · simp only [appShape, bootCalls, lightHead, deepCalls, logTail, blinkCycles, blinkCycle,
      List.cons_append, List.nil_append, List.append_nil, List.append_assoc]
    simp only [List.count_cons, List.count_nil, beq_iff_eq, reduceCtorEq, if_false, if_true,
      Nat.zero_add, Nat.add_zero, Call.printf.injEq, String.reduceEq, false_and, true_and,
      and_true, and_false, List.cons_ne_nil, List.nil_eq, List.cons.injEq]

theorem lightCalls_shape (P : Platform) (t : List Call) :
    ∃ r : Option Nat, lightCalls P t = lightHead P ++
      (Call.printf "Logging CPU utilization...\n" [] :: Call.malloc 1024 :: logTail r) ++
      blinkCycles P 500 500 2 :=
  ⟨_, rfl⟩

/-- The calls of `enter_deep_sleep` before the sleep entry. -/
theorem deepCalls_split (P : Platform) :
    deepCalls P = (Call.printf "Entering Deep Sleep Mode...\n" [] :: blinkCycles P 500 500 3 ++
      [Call.esp_sleep_disable_wakeup_source esp_sleep_source_t.ESP_SLEEP_WAKEUP_ALL,
       Call.esp_sleep_enable_timer_wakeup 5000000,
       Call.vTaskDelay (P.pdMS_TO_TICKS 500)]) ++ [Call.esp_deep_sleep_start] := by
  simp only [deepCalls, List.cons_append, List.append_assoc, List.nil_append]

theorem WakeConfig_run (c : WakeConfig) (t : List Call) :
    c.run t = (some (), t ++
      [Call.esp_sleep_disable_wakeup_source esp_sleep_source_t.ESP_SLEEP_WAKEUP_ALL,
       Call.esp_sleep_enable_timer_wakeup c.duration]) := by
  cases c
  · exact configure_light_run t
  · exact configure_deep_run t

theorem runConfigs_run (ops : List WakeConfig) :
    ∀ t : List Call, runConfigs ops t = (some (), t ++ configCalls ops) := by
  induction ops with
  | nil =>
    intro t
    simp [runConfigs, configCalls, pure_run]
  | cons c cs ih =>
    intro t
    simp only [runConfigs, bind_run, Exec.andThen, WakeConfig_run, ih, configCalls]
    simp

theorem configCalls_append (ops : List WakeConfig) (last : WakeConfig) :
    configCalls (ops ++ [last]) = configCalls ops ++
      [Call.esp_sleep_disable_wakeup_source esp_sleep_source_t.ESP_SLEEP_WAKEUP_ALL,
       Call.esp_sleep_enable_timer_wakeup last.duration] := by
  induction ops with
  | nil => rfl
  | cons c cs ih => simp [configCalls, ih]

theorem registry_after_append (r : List WakeSource) (a b : List Call) :
    registry_after r (a ++ b) = registry_after (registry_after r a) b := by
  simp [registry_after, List.foldl_append]

theorem registry_after_cons (r : List WakeSource) (c : Call) (rest : List Call) :
    registry_after r (c :: rest) = registry_after (registry_step r c) rest := rfl

theorem registry_on_takes :
    ∀ (calls : List Call) (b : Bool) (r : List WakeSource), guardedFrom b calls = true →
      (b = true → r = []) → ∀ n : Nat,
        registry_after r (calls.take n) = r ∨ registry_after r (calls.take n) = [] ∨
        ∃ us, us ∈ timerArms calls ∧ registry_after r (calls.take n) = [WakeSource.timer us] := by
  intro calls
  induction calls with
  | nil =>
    intro b r _ _ n
    left
    simp [registry_after]
  | cons c rest ih =>
    intro b r hg hb n
    cases n with
    | zero =>
      left
      simp [registry_after]
    | succ m =>
      have hc := guardedFrom_cons b c rest hg
      rw [List.take_succ_cons, registry_after_cons]
      cases c with
      | esp_sleep_disable_wakeup_source source =>
        cases source
        have h := ih true [] (by simpa [isDisarmAll] using hc.1) (fun _ => rfl) m
        simp only [registry_step, timerArms]
        rcases h with h | h | ⟨us, h1, h2⟩
        · exact Or.inr (Or.inl h)
        · exact Or.inr (Or.inl h)
        · exact Or.inr (Or.inr ⟨us, h1, h2⟩)
      | esp_sleep_enable_timer_wakeup us0 =>
        have hr : r = [] := hb (hc.2 rfl)
        subst hr
        have h := ih false [WakeSource.timer us0] (by simpa [isDisarmAll] using hc.1)
          (fun hf => by cases hf) m
        simp only [registry_step, timerArms, List.filter_nil]
        rcases h with h | h | ⟨us, h1, h2⟩
        · exact Or.inr (Or.inr ⟨us0, List.mem_cons_self _ _, h⟩)
        · exact Or.inl h
        · exact Or.inr (Or.inr ⟨us, List.mem_cons_of_mem _ h1, h2⟩)
      | _ =>
        have h := ih false r (by simpa [isDisarmAll] using hc.1) (fun hf => by cases hf) m
        simpa only [registry_step, timerArms] using h

theorem workload_loop_upto :
    ∀ (fuel : Nat) (i result : Int), 0 ≤ i → i + fuel ≤ 1000000 →
      -2147483648 ≤ result → result ≤ 2147483647 →
      workload_loop fuel i result
        = wrap32 (result + ((i + fuel) * (i + fuel - 1) - i * (i - 1))) := by
  intro fuel
  induction fuel with
  | zero =>
    intro i result h0 hi hr1 hr2
    simp only [workload_loop, Nat.cast_zero, add_zero, sub_self]
    exact (wrap32_of_int result hr1 hr2).symm
  | succ n ih =>
    intro i result h0 hi hr1 hr2
    have hlt : i < 1000000 := by omega
    have hw : int_add i 1 = i + 1 := by
      unfold int_add
      exact wrap32_of_int _ (by omega) (by omega)
    have hm : int_mul i 2 = i * 2 := by
      unfold int_mul
      exact wrap32_of_int _ (by omega) (by omega)
    simp only [workload_loop, hlt, if_true, hw, hm]
    have hr := wrap32_range (result + i * 2)
    unfold int_add
    rw [ih (i + 1) _ (by omega) (by push_cast at hi ⊢; omega) hr.1 hr.2, wrap32_add_wrap32]
    congr 1
    push_cast
    ring

/-! ## The claims -/

/-- C1, on the code: `simulate_cpu_workload` returns after printing its first
line, reading the timer twice and printing the second line, whose `Result`
argument is the value of the 32-bit accumulator at the end of the loop.  The
accumulator is exact up to the iteration `i = 46340` (2147441940), wraps in
the iteration `i = 46341` (the exact sum 2147534622 is above `INT_MAX`), and
ends at 999999000000 reduced to 32 bits, which is -728379968 and not
999999000000; more fuel than 1000000 iterations changes nothing. -/
theorem simulate_cpu_workload_overflow (P : Platform) (t : List Call) :
    (∃ e : Nat, simulate_cpu_workload P t
      = (some (), t ++ [Call.printf "Simulating CPU workload...\n" [],
          Call.esp_timer_get_time, Call.esp_timer_get_time,
          Call.printf "CPU workload completed. Time taken: %llu microseconds. Result: %d\n"
            [PrintfArg.llu e, PrintfArg.d (-728379968)]])) ∧
    workload_loop 46341 0 0 = 2147441940 ∧
    workload_loop 46342 0 0 = -2147432674 ∧
    workload_result = wrap32 (2 * (1000000 - 1) * 1000000 / 2) ∧
    workload_result = -728379968 ∧
    workload_result ≠ 2 * (1000000 - 1) * 1000000 / 2 ∧
    workload_result ≠ 999999000000 ∧
    ∀ fuel : Nat, workload_loop (1000000 + fuel) 0 0 = -728379968 := by
  refine ⟨⟨uint64_sub
      (to_uint64 (P.timer_value (t ++ [Call.printf "Simulating CPU workload...\n" [],
        Call.esp_timer_get_time])))
      (to_uint64 (P.timer_value (t ++ [Call.printf "Simulating CPU workload...\n" []]))), ?_⟩,
    ?_, ?_, ?_, workload_result_value, ?_, ?_, ?_⟩
  · rw [simulate_run, simulateCalls, workload_result_value]
  · rw [workload_loop_upto 46341 0 0 (by decide) (by decide) (by decide) (by decide)]
    decide
  · rw [workload_loop_upto 46342 0 0 (by decide) (by decide) (by decide) (by decide)]
    decide
  · rw [workload_result_value]
    decide
  · rw [workload_result_value]
    decide
  · rw [workload_result_value]
    decide
  · intro fuel
    rw [workload_fuel (1000000 + fuel) (by omega), workload_result_value]

/-- C2: for a count between 0 and `INT_MAX`, `blinkLED` returns after exactly
`count` blink cycles, each one being: pin high, delay of the on time, pin low,
delay of the off time.  So there are `count` writes of 1 and `count` writes of
0, alternating and starting with 1, and for `count = 0` no call at all. -/
theorem blinkLED_edges (P : Platform) (count delayOn delayOff : Int) (t : List Call)
    (h0 : 0 ≤ count) (hmax : count ≤ 2147483647) :
    ∃ calls : List Call,
      blinkLED P count delayOn delayOff t = (some (), t ++ calls) ∧
      calls = (List.replicate count.toNat
        [Call.gpio_set_level LED_PIN 1, Call.vTaskDelay (P.pdMS_TO_TICKS delayOn),
         Call.gpio_set_level LED_PIN 0, Call.vTaskDelay (P.pdMS_TO_TICKS delayOff)]).flatten ∧
      (calls.count (Call.gpio_set_level LED_PIN 1) : Int) = count ∧
      (calls.count (Call.gpio_set_level LED_PIN 0) : Int) = count ∧
      (count = 0 → calls = []) ∧
      ∀ fuel : Nat, blinkLED_loop P count delayOn delayOff (count.toNat + fuel) 0 t
        = (some (), t ++ calls) := by
  refine ⟨blinkCycles P delayOn delayOff count.toNat,
    blinkLED_run P count delayOn delayOff t hmax, ?_, ?_, ?_, ?_, ?_⟩
  · generalize count.toNat = n
    induction n with
    | zero => simp [blinkCycles]
    | succ k ih => simp [blinkCycles, blinkCycle, List.replicate_succ, ih]
  · rw [blinkCycles_count_rise]
    omega
  · rw [blinkCycles_count_fall]
    omega
  · intro hc
    subst hc
    simp [blinkCycles]
  · intro fuel
    rw [blinkLED_fuel P count delayOn delayOff t hmax _ (by omega),
      blinkLED_run P count delayOn delayOff t hmax]

/-- C2 at a concrete input: three blinks of 200 ms on, 100 ms off. -/
theorem blinkLED_edges_witness :
    ((0 : Int) ≤ 3 ∧ (3 : Int) ≤ 2147483647) ∧
    ∃ calls : List Call,
      blinkLED demoPlatform 3 200 100 [] = (some (), [] ++ calls) ∧
      calls = (List.replicate (3 : Int).toNat
        [Call.gpio_set_level LED_PIN 1, Call.vTaskDelay (demoPlatform.pdMS_TO_TICKS 200),
         Call.gpio_set_level LED_PIN 0, Call.vTaskDelay (demoPlatform.pdMS_TO_TICKS 100)]).flatten ∧
      (calls.count (Call.gpio_set_level LED_PIN 1) : Int) = 3 ∧
      (calls.count (Call.gpio_set_level LED_PIN 0) : Int) = 3 ∧
      ((3 : Int) = 0 → calls = []) ∧
      ∀ fuel : Nat, blinkLED_loop demoPlatform 3 200 100 ((3 : Int).toNat + fuel) 0 []
        = (some (), [] ++ calls) :=
  ⟨⟨by decide, by decide⟩, blinkLED_edges demoPlatform 3 200 100 [] (by decide) (by decide)⟩

/-- C3: in the calls of `app_main`, and in those of each of the two
`configure_wakeup_sources_*` functions alone, every timer-wake arming call is
immediately preceded by the disarm-all call; the arming calls are there (two in
`app_main`, one in each configuring function). -/
theorem arming_follows_disarm (P : Platform) (t : List Call) :
    (∃ calls, app_main P t = (none, t ++ calls) ∧ ArmFollowsDisarm calls ∧
      timerArms calls = [10000000, 5000000]) ∧
    (∃ calls, configure_wakeup_sources_light_sleep t = (some (), t ++ calls) ∧
      ArmFollowsDisarm calls ∧ timerArms calls = [10000000]) ∧
    (∃ calls, configure_wakeup_sources_deep_sleep t = (some (), t ++ calls) ∧
      ArmFollowsDisarm calls ∧ timerArms calls = [5000000]) := by
  refine ⟨⟨_, app_main_run P t, ?_, ?_⟩, ⟨_, configure_light_run t, ?_, ?_⟩,
    ⟨_, configure_deep_run t, ?_, ?_⟩⟩
  · obtain ⟨e, r1, r2, h⟩ := appCalls_shape P t
    rw [h]
    exact guardedFrom_armFollowsDisarm _ (appShape_guarded P e _ r1 r2)
  · obtain ⟨e, r1, r2, h⟩ := appCalls_shape P t
    rw [h]
    exact appShape_timerArms P e _ r1 r2
  · exact guardedFrom_armFollowsDisarm _ (by simp [guardedFrom])
  · simp [timerArms]
  · exact guardedFrom_armFollowsDisarm _ (by simp [guardedFrom])
  · simp [timerArms]

/-- C4: the calls of `enter_light_sleep` hold exactly one timer-wake arming
call, with argument 10000000; those of `enter_deep_sleep` hold exactly one,
with argument 5000000.  The two arguments are the 32-bit products
`10 * 1000000` and `5 * 1000000`, which do not overflow. -/
theorem phase_timer_arms (P : Platform) (t : List Call) :
    (∃ calls, enter_light_sleep P t = (some (), t ++ calls) ∧ timerArms calls = [10000000]) ∧
    (∃ calls, enter_deep_sleep P t = (none, t ++ calls) ∧ timerArms calls = [5000000]) ∧
    int_mul 10 1000000 = 10 * 1000000 ∧ int_mul 5 1000000 = 5 * 1000000 ∧
    to_uint64 (int_mul 10 1000000) = 10000000 ∧ to_uint64 (int_mul 5 1000000) = 5000000 := by
  refine ⟨⟨_, light_run P t, ?_⟩, ⟨_, deep_run P t, ?_⟩, by decide, by decide, by decide,
    by decide⟩
  · obtain ⟨r, h⟩ := lightCalls_shape P t
    rw [h]
    cases r <;>
    · simp only [lightHead, logTail, blinkCycles, blinkCycle, List.cons_append,
        List.nil_append, List.append_nil, List.append_assoc]
      simp only [timerArms]
  · simp only [deepCalls, blinkCycles, blinkCycle, List.cons_append,
      List.nil_append, List.append_nil, List.append_assoc]
    simp only [timerArms]

/-- C5: in the calls of `app_main`, `esp_light_sleep_start` occurs exactly
once, after the arming of the 10000000 us timer wake, and
`esp_deep_sleep_start` occurs exactly once, after the arming of the 5000000 us
timer wake; no call between an arming and its sleep entry disarms or arms a
wake source. -/
theorem sleep_entry_follows_arming (P : Platform) (t : List Call) :
    ∃ calls, app_main P t = (none, t ++ calls) ∧
      calls.count Call.esp_light_sleep_start = 1 ∧
      calls.count Call.esp_deep_sleep_start = 1 ∧
      (∃ pre mid post, calls = pre ++ Call.esp_sleep_enable_timer_wakeup 10000000 :: mid ++
          Call.esp_light_sleep_start :: post ∧ mid.filter isWakeConfig = []) ∧
      (∃ pre mid post, calls = pre ++ Call.esp_sleep_enable_timer_wakeup 5000000 :: mid ++
          Call.esp_deep_sleep_start :: post ∧ mid.filter isWakeConfig = []) := by
  refine ⟨_, app_main_run P t, ?_⟩
  obtain ⟨e, r1, r2, h⟩ := appCalls_shape P t
  rw [h]
  generalize workload_result = w
  refine ⟨appShape_count_light P e w r1 r2, appShape_count_deep P e w r1 r2, ?_, ?_⟩
  · refine ⟨bootCalls ++
      (Call.printf "Entering Run Mode...\n" [] :: blinkCycles P 300 300 1 ++
        [Call.printf "Simulating CPU workload...\n" [],
         Call.esp_timer_get_time, Call.esp_timer_get_time,
         Call.printf "CPU workload completed. Time taken: %llu microseconds. Result: %d\n"
           [PrintfArg.llu e, PrintfArg.d w]] ++
        (Call.printf "Logging CPU utilization...\n" [] :: Call.malloc 1024 :: logTail r1) ++
        [Call.vTaskDelay (P.pdMS_TO_TICKS 2000)]) ++
      (Call.printf "Entering Light Sleep Mode...\n" [] :: blinkCycles P 200 200 5 ++
        [Call.esp_sleep_disable_wakeup_source esp_sleep_source_t.ESP_SLEEP_WAKEUP_ALL]),
      [],
      Call.printf "Woke up from Light Sleep.\n" [] ::
        ((Call.printf "Logging CPU utilization...\n" [] :: Call.malloc 1024 :: logTail r2)
          ++ blinkCycles P 500 500 2 ++ deepCalls P), ?_, rfl⟩
    simp only [appShape, lightHead, List.cons_append, List.nil_append, List.append_nil,
      List.append_assoc]
  · refine ⟨bootCalls ++
      (Call.printf "Entering Run Mode...\n" [] :: blinkCycles P 300 300 1 ++
        [Call.printf "Simulating CPU workload...\n" [],
         Call.esp_timer_get_time, Call.esp_timer_get_time,
         Call.printf "CPU workload completed. Time taken: %llu microseconds. Result: %d\n"
           [PrintfArg.llu e, PrintfArg.d w]] ++
        (Call.printf "Logging CPU utilization...\n" [] :: Call.malloc 1024 :: logTail r1) ++
        [Call.vTaskDelay (P.pdMS_TO_TICKS 2000)]) ++
      (lightHead P ++
        (Call.printf "Logging CPU utilization...\n" [] :: Call.malloc 1024 :: logTail r2)
        ++ blinkCycles P 500 500 2) ++
      (Call.printf "Entering Deep Sleep Mode...\n" [] :: blinkCycles P 500 500 3 ++
        [Call.esp_sleep_disable_wakeup_source esp_sleep_source_t.ESP_SLEEP_WAKEUP_ALL]),
      [Call.vTaskDelay (P.pdMS_TO_TICKS 500)], [], ?_, ?_⟩
    · simp only [appShape, deepCalls, List.cons_append, List.nil_append, List.append_nil,
        List.append_assoc]
    · simp [isWakeConfig]

/-- C6: in `enter_deep_sleep` and in `app_main` the call of
`esp_deep_sleep_start` is the last call recorded and control never returns;
the calls of `enter_deep_sleep` are its print, three blink cycles, the two
wake-source calls, the 500 ms delay and the sleep entry, so the
`log_cpu_utilization ()` written after the sleep entry adds no print, no
`malloc` and no `vTaskGetRunTimeStats`. -/
theorem nothing_after_deep_sleep (P : Platform) (t : List Call) :
    (∃ pre, enter_deep_sleep P t = (none, t ++ pre ++ [Call.esp_deep_sleep_start]) ∧
      pre = Call.printf "Entering Deep Sleep Mode...\n" [] :: blinkCycles P 500 500 3 ++
        [Call.esp_sleep_disable_wakeup_source esp_sleep_source_t.ESP_SLEEP_WAKEUP_ALL,
         Call.esp_sleep_enable_timer_wakeup 5000000,
         Call.vTaskDelay (P.pdMS_TO_TICKS 500)] ∧
      pre.count Call.esp_deep_sleep_start = 0 ∧
      pre.count (Call.printf "Logging CPU utilization...\n" []) = 0 ∧
      pre.count (Call.malloc 1024) = 0 ∧
      (∀ buf, pre.count (Call.vTaskGetRunTimeStats buf) = 0)) ∧
    (∃ pre, app_main P t = (none, t ++ pre ++ [Call.esp_deep_sleep_start]) ∧
      pre.count Call.esp_deep_sleep_start = 0) := by
  constructor
  · refine ⟨_, ?_, rfl, ?_, ?_, ?_, ?_⟩
    · rw [deep_run, deepCalls_split]
      simp only [List.append_assoc, List.cons_append]
    · simp only [blinkCycles, blinkCycle, List.cons_append, List.nil_append, List.append_nil,
        List.count_cons, List.count_nil, beq_iff_eq, reduceCtorEq, if_false, Nat.add_zero]
    · simp only [blinkCycles, blinkCycle, List.cons_append, List.nil_append, List.append_nil,
        List.count_cons, List.count_nil, beq_iff_eq, reduceCtorEq, if_false, Nat.add_zero,
        Call.printf.injEq, String.reduceEq, false_and]
    · simp only [blinkCycles, blinkCycle, List.cons_append, List.nil_append, List.append_nil,
        List.count_cons, List.count_nil, beq_iff_eq, reduceCtorEq, if_false, Nat.add_zero]
    · intro buf
      simp only [blinkCycles, blinkCycle, List.cons_append, List.nil_append, List.append_nil,
        List.count_cons, List.count_nil, beq_iff_eq, reduceCtorEq, if_false, Nat.add_zero]
  · obtain ⟨e, r1, r2, h⟩ := appCalls_shape P t
    have hc := appShape_count_deep P e workload_result r1 r2
    have hs : appShape P e workload_result r1 r2
        = (bootCalls ++
          (Call.printf "Entering Run Mode...\n" [] :: blinkCycles P 300 300 1 ++
            [Call.printf "Simulating CPU workload...\n" [],
             Call.esp_timer_get_time, Call.esp_timer_get_time,
             Call.printf
               "CPU workload completed. Time taken: %llu microseconds. Result: %d\n"
               [PrintfArg.llu e, PrintfArg.d workload_result]] ++
            (Call.printf "Logging CPU utilization...\n" [] :: Call.malloc 1024 :: logTail r1) ++
            [Call.vTaskDelay (P.pdMS_TO_TICKS 2000)]) ++
          (lightHead P ++
            (Call.printf "Logging CPU utilization...\n" [] :: Call.malloc 1024 :: logTail r2)
            ++ blinkCycles P 500 500 2) ++
          (Call.printf "Entering Deep Sleep Mode...\n" [] :: blinkCycles P 500 500 3 ++
            [Call.esp_sleep_disable_wakeup_source esp_sleep_source_t.ESP_SLEEP_WAKEUP_ALL,
             Call.esp_sleep_enable_timer_wakeup 5000000,
             Call.vTaskDelay (P.pdMS_TO_TICKS 500)])) ++ [Call.esp_deep_sleep_start] := by
      rw [appShape, deepCalls_split]
      simp only [List.append_assoc]
    obtain ⟨pre, hpre⟩ : ∃ pre, appShape P e workload_result r1 r2
        = pre ++ [Call.esp_deep_sleep_start] := ⟨_, hs⟩
    rw [hpre, List.count_append] at hc
    refine ⟨pre, ?_, ?_⟩
    · rw [app_main_run, h, hpre, List.append_assoc]
    · simpa using hc

/-- C7: from an empty trace, the calls of `app_main` are `gpio_reset_pin (2)`,
`gpio_set_direction (2, GPIO_MODE_OUTPUT)`, the print of the "System booted"
line, then all the calls of `run_mode_activity`, then all those of
`enter_light_sleep`, then those of `enter_deep_sleep`; each phase is entered
once, and the last call is `esp_deep_sleep_start`. -/
theorem boot_trace (P : Platform) :
    ∃ runPart lightPart deepPart : List Call,
      app_main P [] = (none,
        [Call.gpio_reset_pin 2, Call.gpio_set_direction 2 gpio_mode_t.GPIO_MODE_OUTPUT,
         Call.printf "System booted. Configuring wake-up sources...\n" []]
        ++ runPart ++ lightPart ++ deepPart) ∧
      run_mode_activity P
        [Call.gpio_reset_pin 2, Call.gpio_set_direction 2 gpio_mode_t.GPIO_MODE_OUTPUT,
         Call.printf "System booted. Configuring wake-up sources...\n" []]
        = (some (),
           [Call.gpio_reset_pin 2, Call.gpio_set_direction 2 gpio_mode_t.GPIO_MODE_OUTPUT,
            Call.printf "System booted. Configuring wake-up sources...\n" []] ++ runPart) ∧
      enter_light_sleep P
        ([Call.gpio_reset_pin 2, Call.gpio_set_direction 2 gpio_mode_t.GPIO_MODE_OUTPUT,
          Call.printf "System booted. Configuring wake-up sources...\n" []] ++ runPart)
        = (some (),
           [Call.gpio_reset_pin 2, Call.gpio_set_direction 2 gpio_mode_t.GPIO_MODE_OUTPUT,
            Call.printf "System booted. Configuring wake-up sources...\n" []]
           ++ runPart ++ lightPart) ∧
      enter_deep_sleep P
        ([Call.gpio_reset_pin 2, Call.gpio_set_direction 2 gpio_mode_t.GPIO_MODE_OUTPUT,
          Call.printf "System booted. Configuring wake-up sources...\n" []]
          ++ runPart ++ lightPart)
        = (none,
           [Call.gpio_reset_pin 2, Call.gpio_set_direction 2 gpio_mode_t.GPIO_MODE_OUTPUT,
            Call.printf "System booted. Configuring wake-up sources...\n" []]
           ++ runPart ++ lightPart ++ deepPart) ∧
      (∃ pre, deepPart = pre ++ [Call.esp_deep_sleep_start]) ∧
      (app_main P []).2.count (Call.printf "Entering Run Mode...\n" []) = 1 ∧
      (app_main P []).2.count (Call.printf "Entering Light Sleep Mode...\n" []) = 1 ∧
      (app_main P []).2.count (Call.printf "Entering Deep Sleep Mode...\n" []) = 1 ∧
      (app_main P []).2.count (Call.printf "System booted. Configuring wake-up sources...\n" [])
        = 1 ∧
      ∃ rest, "System booted. Configuring wake-up sources...\n" = "System booted" ++ rest := by
  have hcount : ∀ s : String,
      (s = "Entering Run Mode...\n" ∨ s = "Entering Light Sleep Mode...\n" ∨
        s = "Entering Deep Sleep Mode...\n" ∨
        s = "System booted. Configuring wake-up sources...\n") →
      (app_main P []).2.count (Call.printf s []) = 1 := by
    intro s hs
    obtain ⟨e, r1, r2, h⟩ := appCalls_shape P []
    rw [app_main_run, List.nil_append, h]
    exact appShape_count_printf P e _ r1 r2 s hs
  refine ⟨runCalls P bootCalls, lightCalls P (bootCalls ++ runCalls P bootCalls), deepCalls P,
    ?_, ?_, ?_, ?_, ?_, ?_, ?_, ?_, ?_, ?_⟩
  · rw [app_main_run]
    rfl
  · exact run_mode_run P bootCalls
  · exact light_run P (bootCalls ++ runCalls P bootCalls)
  · exact deep_run P (bootCalls ++ runCalls P bootCalls ++ lightCalls P _)
  · exact ⟨_, deepCalls_split P⟩
  · exact hcount _ (Or.inl rfl)
  · exact hcount _ (Or.inr (Or.inl rfl))
  · exact hcount _ (Or.inr (Or.inr (Or.inl rfl)))
  · exact hcount _ (Or.inr (Or.inr (Or.inr rfl)))
  · exact ⟨". Configuring wake-up sources...\n", by decide⟩

/-- C8, as the code has it: the calls of `enter_light_sleep` are the print
"Entering Light Sleep Mode...", five blink cycles of 200 ms / 200 ms, the
disarm-all call, the arming of the 10000000 us timer wake and the light-sleep
entry; after it returns, the print "Woke up from Light Sleep.", then all the
calls of `log_cpu_utilization` run at that point: its "Logging CPU
utilization..." print and `malloc (1024)`, followed, when `malloc` answers
`NULL`, by the error print alone, and, when it answers a buffer `buf`, by
`vTaskGetRunTimeStats (buf)`, the statistics print of `buf` and `free (buf)`;
then two blink cycles of 500 ms / 500 ms, after which the function returns. -/
theorem light_sleep_trace (P : Platform) (t : List Call) :
    enter_light_sleep P t = (some (), t ++
      (Call.printf "Entering Light Sleep Mode...\n" [] :: blinkCycles P 200 200 5 ++
        [Call.esp_sleep_disable_wakeup_source esp_sleep_source_t.ESP_SLEEP_WAKEUP_ALL,
         Call.esp_sleep_enable_timer_wakeup 10000000,
         Call.esp_light_sleep_start,
         Call.printf "Woke up from Light Sleep.\n" []]) ++
      (Call.printf "Logging CPU utilization...\n" [] :: Call.malloc 1024 ::
      (match P.malloc_result (t ++
          (Call.printf "Entering Light Sleep Mode...\n" [] :: blinkCycles P 200 200 5 ++
            [Call.esp_sleep_disable_wakeup_source esp_sleep_source_t.ESP_SLEEP_WAKEUP_ALL,
             Call.esp_sleep_enable_timer_wakeup 10000000,
             Call.esp_light_sleep_start,
             Call.printf "Woke up from Light Sleep.\n" []]) ++
          [Call.printf "Logging CPU utilization...\n" []]) 1024 with
       | none => [Call.printf "Error: Failed to allocate memory for runtime stats.\n" []]
       | some buf =>
         [Call.vTaskGetRunTimeStats buf,
          Call.printf "Task Runtime Statistics:\n%s\n" [PrintfArg.s buf],
          Call.free buf])) ++
      blinkCycles P 500 500 2) ∧
    log_cpu_utilization P (t ++
      (Call.printf "Entering Light Sleep Mode...\n" [] :: blinkCycles P 200 200 5 ++
        [Call.esp_sleep_disable_wakeup_source esp_sleep_source_t.ESP_SLEEP_WAKEUP_ALL,
         Call.esp_sleep_enable_timer_wakeup 10000000,
         Call.esp_light_sleep_start,
         Call.printf "Woke up from Light Sleep.\n" []]))
      = (some (), t ++
      (Call.printf "Entering Light Sleep Mode...\n" [] :: blinkCycles P 200 200 5 ++
        [Call.esp_sleep_disable_wakeup_source esp_sleep_source_t.ESP_SLEEP_WAKEUP_ALL,
         Call.esp_sleep_enable_timer_wakeup 10000000,
         Call.esp_light_sleep_start,
         Call.printf "Woke up from Light Sleep.\n" []]) ++
      (Call.printf "Logging CPU utilization...\n" [] :: Call.malloc 1024 ::
      (match P.malloc_result (t ++
          (Call.printf "Entering Light Sleep Mode...\n" [] :: blinkCycles P 200 200 5 ++
            [Call.esp_sleep_disable_wakeup_source esp_sleep_source_t.ESP_SLEEP_WAKEUP_ALL,
             Call.esp_sleep_enable_timer_wakeup 10000000,
             Call.esp_light_sleep_start,
             Call.printf "Woke up from Light Sleep.\n" []]) ++
          [Call.printf "Logging CPU utilization...\n" []]) 1024 with
       | none => [Call.printf "Error: Failed to allocate memory for runtime stats.\n" []]
       | some buf =>
         [Call.vTaskGetRunTimeStats buf,
          Call.printf "Task Runtime Statistics:\n%s\n" [PrintfArg.s buf],
          Call.free buf]))) ∧
    blinkCycles P 200 200 5 = (List.replicate 5
      [Call.gpio_set_level LED_PIN 1, Call.vTaskDelay (P.pdMS_TO_TICKS 200),
       Call.gpio_set_level LED_PIN 0, Call.vTaskDelay (P.pdMS_TO_TICKS 200)]).flatten ∧
    blinkCycles P 500 500 2 = (List.replicate 2
      [Call.gpio_set_level LED_PIN 1, Call.vTaskDelay (P.pdMS_TO_TICKS 500),
       Call.gpio_set_level LED_PIN 0, Call.vTaskDelay (P.pdMS_TO_TICKS 500)]).flatten := by
  refine ⟨?_, ?_, rfl, rfl⟩
  · rw [light_run]
    simp only [lightCalls, logCalls, lightHead, List.append_assoc]
    cases P.malloc_result (t ++
          (Call.printf "Entering Light Sleep Mode...\n" [] :: blinkCycles P 200 200 5 ++
            [Call.esp_sleep_disable_wakeup_source esp_sleep_source_t.ESP_SLEEP_WAKEUP_ALL,
             Call.esp_sleep_enable_timer_wakeup 10000000,
             Call.esp_light_sleep_start,
             Call.printf "Woke up from Light Sleep.\n" []] ++
          [Call.printf "Logging CPU utilization...\n" []])) 1024 <;> rfl
  · have h := log_run P (t ++ lightHead P)
    simp only [logCalls] at h
    rw [show t ++ (Call.printf "Entering Light Sleep Mode...\n" [] ::
          blinkCycles P 200 200 5 ++
          [Call.esp_sleep_disable_wakeup_source esp_sleep_source_t.ESP_SLEEP_WAKEUP_ALL,
           Call.esp_sleep_enable_timer_wakeup 10000000,
           Call.esp_light_sleep_start,
           Call.printf "Woke up from Light Sleep.\n" []]) = t ++ lightHead P from rfl, h]
    cases P.malloc_result (t ++ lightHead P ++
      [Call.printf "Logging CPU utilization...\n" []]) 1024 <;> rfl

/-- C8, as stated, fails: with an allocator that returns `NULL` the calls of
`enter_light_sleep` are not the claimed sequence, and no
`vTaskGetRunTimeStats` call is made at all; with an allocator that succeeds
they are not the claimed sequence either. -/
theorem light_sleep_trace_not_as_claimed :
    (¬ ∃ (entering woke : String) (buf : Nat),
      (enter_light_sleep noHeapPlatform []).2 =
        Call.printf entering [] :: blinkCycles noHeapPlatform 200 200 5 ++
          [Call.esp_sleep_disable_wakeup_source esp_sleep_source_t.ESP_SLEEP_WAKEUP_ALL,
           Call.esp_sleep_enable_timer_wakeup 10000000,
           Call.esp_light_sleep_start,
           Call.printf woke [],
           Call.vTaskGetRunTimeStats buf] ++ blinkCycles noHeapPlatform 500 500 2) ∧
    (∀ buf, (enter_light_sleep noHeapPlatform []).2.count (Call.vTaskGetRunTimeStats buf) = 0) ∧
    (¬ ∃ (entering woke : String) (buf : Nat),
      (enter_light_sleep demoPlatform []).2 =
        Call.printf entering [] :: blinkCycles demoPlatform 200 200 5 ++
          [Call.esp_sleep_disable_wakeup_source esp_sleep_source_t.ESP_SLEEP_WAKEUP_ALL,
           Call.esp_sleep_enable_timer_wakeup 10000000,
           Call.esp_light_sleep_start,
           Call.printf woke [],
           Call.vTaskGetRunTimeStats buf] ++ blinkCycles demoPlatform 500 500 2) := by
  refine ⟨?_, ?_, ?_⟩
  · rintro ⟨entering, woke, buf, h⟩
    have h2 := congrArg List.length h
    have h3 : (enter_light_sleep noHeapPlatform []).2.length = 36 := by decide
    rw [h3] at h2
    simp [blinkCycles, blinkCycle] at h2
  · intro buf
    have h : (enter_light_sleep noHeapPlatform []).2
        = lightHead noHeapPlatform ++
          [Call.printf "Logging CPU utilization...\n" [], Call.malloc 1024,
           Call.printf "Error: Failed to allocate memory for runtime stats.\n" []] ++
          blinkCycles noHeapPlatform 500 500 2 := by
      rw [light_run]
      rfl
    rw [h]
    simp only [lightHead, blinkCycles, blinkCycle, List.cons_append, List.nil_append,
      List.append_nil, List.append_assoc, List.count_cons, List.count_nil, beq_iff_eq,
      reduceCtorEq, if_false, Nat.add_zero]
  · rintro ⟨entering, woke, buf, h⟩
    have h2 := congrArg List.length h
    have h3 : (enter_light_sleep demoPlatform []).2.length = 38 := by decide
    rw [h3] at h2
    simp [blinkCycles, blinkCycle] at h2

/-- C9: `log_cpu_utilization` prints its first line and calls `malloc (1024)`.
If the answer is `NULL` it prints one error line and returns, with no further
call.  Otherwise it calls `vTaskGetRunTimeStats` on the buffer, prints the
buffer under "Task Runtime Statistics:", calls `free` on it once and returns.
In both cases `enter_light_sleep` goes on: its two blink cycles of 500 ms
follow the calls of `log_cpu_utilization`, and it returns. -/
theorem log_cpu_utilization_outcomes (P : Platform) (t : List Call) :
    log_cpu_utilization P t = (some (), t ++
      Call.printf "Logging CPU utilization...\n" [] :: Call.malloc 1024 ::
      (match P.malloc_result (t ++ [Call.printf "Logging CPU utilization...\n" []]) 1024 with
       | none => [Call.printf "Error: Failed to allocate memory for runtime stats.\n" []]
       | some buf =>
         [Call.vTaskGetRunTimeStats buf,
          Call.printf "Task Runtime Statistics:\n%s\n" [PrintfArg.s buf],
          Call.free buf])) ∧
    enter_light_sleep P t = (some (), t ++
      (Call.printf "Entering Light Sleep Mode...\n" [] :: blinkCycles P 200 200 5 ++
        [Call.esp_sleep_disable_wakeup_source esp_sleep_source_t.ESP_SLEEP_WAKEUP_ALL,
         Call.esp_sleep_enable_timer_wakeup 10000000,
         Call.esp_light_sleep_start,
         Call.printf "Woke up from Light Sleep.\n" []]) ++
      (Call.printf "Logging CPU utilization...\n" [] :: Call.malloc 1024 ::
      (match P.malloc_result (t ++
          (Call.printf "Entering Light Sleep Mode...\n" [] :: blinkCycles P 200 200 5 ++
            [Call.esp_sleep_disable_wakeup_source esp_sleep_source_t.ESP_SLEEP_WAKEUP_ALL,
             Call.esp_sleep_enable_timer_wakeup 10000000,
             Call.esp_light_sleep_start,
             Call.printf "Woke up from Light Sleep.\n" []]) ++
          [Call.printf "Logging CPU utilization...\n" []]) 1024 with
       | none => [Call.printf "Error: Failed to allocate memory for runtime stats.\n" []]
       | some buf =>
         [Call.vTaskGetRunTimeStats buf,
          Call.printf "Task Runtime Statistics:\n%s\n" [PrintfArg.s buf],
          Call.free buf])) ++
      blinkCycles P 500 500 2) := by
  constructor
  · rw [log_run]
    simp only [logCalls]
    cases P.malloc_result (t ++ [Call.printf "Logging CPU utilization...\n" []]) 1024 <;> rfl
  · rw [light_run]
    simp only [lightCalls, logCalls, lightHead, List.append_assoc]
    cases P.malloc_result (t ++
          (Call.printf "Entering Light Sleep Mode...\n" [] :: blinkCycles P 200 200 5 ++
            [Call.esp_sleep_disable_wakeup_source esp_sleep_source_t.ESP_SLEEP_WAKEUP_ALL,
             Call.esp_sleep_enable_timer_wakeup 10000000,
             Call.esp_light_sleep_start,
             Call.printf "Woke up from Light Sleep.\n" []] ++
          [Call.printf "Logging CPU utilization...\n" []])) 1024 <;> rfl

/-- C10: on the registry of armed wake sources, from any registry `r0`: after
any sequence of calls to the two configuring functions that ends with `last`
the registry holds exactly the timer with the duration of `last`; two calls in
a row leave exactly one source armed; and after every prefix of the calls of
`app_main` the registry is either still `r0` (no wake-source call yet), or
empty, or holds only the 10000000 us timer, or only the 5000000 us timer. -/
theorem one_wake_source_armed (r0 : List WakeSource) :
    (∀ (ops : List WakeConfig) (last : WakeConfig) (t : List Call), ∃ calls,
      runConfigs (ops ++ [last]) t = (some (), t ++ calls) ∧
      registry_after r0 calls = [WakeSource.timer last.duration]) ∧
    (∀ (a b : WakeConfig) (t : List Call), ∃ calls,
      (a.run >>= fun _ => b.run) t = (some (), t ++ calls) ∧
      (registry_after r0 calls).length = 1) ∧
    (∀ (P : Platform) (n : Nat),
      registry_after r0 ((app_main P []).2.take n) = r0 ∨
      registry_after r0 ((app_main P []).2.take n) = [] ∨
      registry_after r0 ((app_main P []).2.take n) = [WakeSource.timer 10000000] ∨
      registry_after r0 ((app_main P []).2.take n) = [WakeSource.timer 5000000]) := by
  refine ⟨?_, ?_, ?_⟩
  · intro ops last t
    refine ⟨configCalls (ops ++ [last]), runConfigs_run _ t, ?_⟩
    rw [configCalls_append, registry_after_append]
    simp [registry_after, registry_step]
  · intro a b t
    refine ⟨[Call.esp_sleep_disable_wakeup_source esp_sleep_source_t.ESP_SLEEP_WAKEUP_ALL,
       Call.esp_sleep_enable_timer_wakeup a.duration,
       Call.esp_sleep_disable_wakeup_source esp_sleep_source_t.ESP_SLEEP_WAKEUP_ALL,
       Call.esp_sleep_enable_timer_wakeup b.duration], ?_, ?_⟩
    · simp only [bind_run, Exec.andThen, WakeConfig_run]
      simp
    · simp [registry_after, registry_step]
  · intro P n
    obtain ⟨e, r1, r2, h⟩ := appCalls_shape P []
    rw [app_main_run, List.nil_append, h]
    have hg := appShape_guarded P e workload_result r1 r2
    have ha := appShape_timerArms P e workload_result r1 r2
    rcases registry_on_takes _ false r0 hg (fun hf => by cases hf) n with h1 | h1 | ⟨us, h1, h2⟩
    · exact Or.inl h1
    · exact Or.inr (Or.inl h1)
    · rw [ha] at h1
      simp only [List.mem_cons, List.mem_singleton, List.not_mem_nil, or_false] at h1
      rcases h1 with h1 | h1
      · subst h1
        exact Or.inr (Or.inr (Or.inl h2))
      · subst h1
        exact Or.inr (Or.inr (Or.inr h2))

end PowerModes
